import Mathlib

/-!
Verification development for the Intercom_minimal real-time audio bridge
(`intercom_minimal.py`, `intercom__minimal.py`).

The embedding models the Python source shallowly:
- a numpy int16 chunk of shape `frames_per_chunk × number_of_channels`
  becomes a `List (List Int)` (rows of samples);
- `np.frombuffer` / `ndarray.reshape` become `Option`-returning functions
  (`none` models the numpy `ValueError` they raise);
- socket effects (`sendto`, `recvfrom`) are environment parameters: the
  callback receives the result the transport would have produced;
- the telemetry counters of `Intercom_minimal_debug` become an explicit
  state record threaded through `send_packet` / `receive_packet` /
  `print_feedback`.
-/

namespace Intercom

/-- Configuration fixed at startup by the argument parser: the chunk shape
parameters used by the codec and the bridge. -/
structure Config where
  frames_per_chunk : Nat
  number_of_channels : Nat
deriving DecidableEq, Repr

/-- Byte width of one sample: `np.dtype(np.int16).itemsize`. -/
def SAMPLE_TYPE_itemsize : Nat := 2

/-- A chunk of audio: `frames_per_chunk` rows, each row one frame holding
`number_of_channels` int16 samples (row-major, as a C-contiguous numpy
array stores them). -/
abbrev Chunk := List (List Int)

/-- The chunk has exactly the configured shape. -/
def Chunk.wellShaped (cfg : Config) (c : Chunk) : Prop :=
  c.length = cfg.frames_per_chunk ∧ ∀ r ∈ c, r.length = cfg.number_of_channels

instance (cfg : Config) (c : Chunk) : Decidable (Chunk.wellShaped cfg c) := by
  unfold Chunk.wellShaped; infer_instance

/-- The value fits in a signed 16-bit sample. -/
def int16InRange (x : Int) : Prop := -32768 ≤ x ∧ x ≤ 32767

instance (x : Int) : Decidable (int16InRange x) := by
  unfold int16InRange; infer_instance

/-- Little-endian two's-complement byte pair of an int16 sample, exactly the
raw bytes a numpy int16 array stores for it. -/
def encodeInt16 (x : Int) : List Nat :=
  [(x % 65536).toNat % 256, (x % 65536).toNat / 256]

/-- Reads one int16 sample back from a little-endian byte pair. -/
def decodeInt16 (b0 b1 : Nat) : Int :=
  if b0 % 256 + 256 * (b1 % 256) < 32768 then
    ((b0 % 256 + 256 * (b1 % 256) : Nat) : Int)
  else
    ((b0 % 256 + 256 * (b1 % 256) : Nat) : Int) - 65536

/-- Raw byte sequence of a flat list of int16 samples. -/
def bytesOfSamples : List Int → List Nat
  | [] => []
  | x :: xs => encodeInt16 x ++ bytesOfSamples xs

/-- Row-major flattening of a chunk, the element order of a C-contiguous
numpy array. -/
def rowsFlatten : Chunk → List Int
  | [] => []
  | r :: rs => r ++ rowsFlatten rs

/-- Byte buffer of a C-contiguous int16 numpy array: row-major samples in
little-endian byte order. This is what `np.frombuffer` reads when handed
the array object itself. -/
def chunkBytes (c : Chunk) : List Nat := bytesOfSamples (rowsFlatten c)

/-- Model of `np.frombuffer(packet, np.int16)`: reinterprets the byte
sequence as int16 samples; `none` models the `ValueError` numpy raises
when the byte count is not a multiple of the item size. -/
def frombuffer : List Nat → Option (List Int)
  | [] => some []
  | [_] => none
  | b0 :: b1 :: rest => (frombuffer rest).map (fun ys => decodeInt16 b0 b1 :: ys)

/-- Model of `chunk.reshape(frames, channels)`: splits the flat sample list
into `frames` rows of `channels` samples; `none` models the `ValueError`
numpy raises when the element count differs from `frames * channels`. -/
def reshapeRows (channels : Nat) : Nat → List Int → Option Chunk
  | 0, xs => if xs.isEmpty then some [] else none
  | f + 1, xs =>
      if channels ≤ xs.length then
        (reshapeRows channels f (xs.drop channels)).map
          (fun rows => xs.take channels :: rows)
      else none

theorem decodeInt16_encode (x : Int) (h1 : -32768 ≤ x) (h2 : x ≤ 32767) :
    decodeInt16 ((x % 65536).toNat % 256) ((x % 65536).toNat / 256) = x := by
  unfold decodeInt16
  split <;> omega

theorem frombuffer_bytesOfSamples (xs : List Int)
    (h : ∀ x ∈ xs, int16InRange x) :
    frombuffer (bytesOfSamples xs) = some xs := by
  induction xs with
  | nil => rfl
  | cons x tl ih =>
      have hx : int16InRange x := h x (List.mem_cons_self x tl)
      have htl : ∀ y ∈ tl, int16InRange y := fun y hy => h y (List.mem_cons_of_mem x hy)
      show frombuffer (encodeInt16 x ++ bytesOfSamples tl) = some (x :: tl)
      simp only [encodeInt16, List.cons_append, List.nil_append, frombuffer]
      simp [ih htl, decodeInt16_encode x hx.1 hx.2]

theorem rowsFlatten_range (c : Chunk) (h : ∀ r ∈ c, ∀ x ∈ r, int16InRange x) :
    ∀ x ∈ rowsFlatten c, int16InRange x := by
  induction c with
  | nil => simp [rowsFlatten]
  | cons r rs ih =>
      intro x hx
      rw [rowsFlatten, List.mem_append] at hx
      rcases hx with hx | hx
      · exact h r (List.mem_cons_self r rs) x hx
      · exact ih (fun s hs => h s (List.mem_cons_of_mem r hs)) x hx

theorem reshapeRows_rowsFlatten (channels : Nat) :
    ∀ c : Chunk, (∀ r ∈ c, r.length = channels) →
      reshapeRows channels c.length (rowsFlatten c) = some c := by
  intro c
  induction c with
  | nil => intro _; rfl
  | cons r rs ih =>
      intro h
      have hr : r.length = channels := h r (List.mem_cons_self r rs)
      have ht : reshapeRows channels rs.length (rowsFlatten rs) = some rs :=
        ih (fun s hs => h s (List.mem_cons_of_mem r hs))
      subst hr
      have hle : r.length ≤ (r ++ rowsFlatten rs).length := by
        rw [List.length_append]; exact Nat.le_add_right _ _
      simp only [rowsFlatten, List.length_cons, reshapeRows]
      rw [if_pos hle, List.take_left, List.drop_left, ht]
      rfl

theorem reshapeRows_of_length (channels : Nat) :
    ∀ (f : Nat) (xs : List Int), xs.length = f * channels →
      ∃ rows, reshapeRows channels f xs = some rows ∧
        rows.length = f ∧ ∀ r ∈ rows, r.length = channels := by
  intro f
  induction f with
  | zero =>
      intro xs h
      have hnil : xs = [] := List.eq_nil_of_length_eq_zero (by simpa using h)
      subst hnil
      exact ⟨[], rfl, rfl, by simp⟩
  | succ f ih =>
      intro xs h
      have hle : channels ≤ xs.length := by
        rw [h, Nat.succ_mul]; exact Nat.le_add_left _ _
      have hdrop : (xs.drop channels).length = f * channels := by
        rw [List.length_drop, h, Nat.succ_mul]; omega
      obtain ⟨rows, hrw, hlen, hall⟩ := ih (xs.drop channels) hdrop
      refine ⟨xs.take channels :: rows, ?_, by simp [hlen], ?_⟩
      · simp only [reshapeRows]
        rw [if_pos hle, hrw]
        rfl
      · intro r hr
        rcases List.mem_cons.mp hr with h1 | h1
        · rw [h1, List.length_take]; omega
        · exact hall r h1

theorem reshapeRows_none (channels : Nat) :
    ∀ (f : Nat) (xs : List Int), xs.length ≠ f * channels →
      reshapeRows channels f xs = none := by
  intro f
  induction f with
  | zero =>
      intro xs h
      cases xs with
      | nil => simp at h
      | cons a t => simp [reshapeRows]
  | succ f ih =>
      intro xs h
      by_cases hle : channels ≤ xs.length
      · have hne : (xs.drop channels).length ≠ f * channels := by
          rw [List.length_drop]
          intro hc
          apply h
          rw [Nat.succ_mul]
          omega
        simp only [reshapeRows]
        rw [if_pos hle, ih _ hne]
        rfl
      · simp only [reshapeRows]
        rw [if_neg hle]

theorem frombuffer_of_even :
    ∀ xs : List Nat, xs.length % 2 = 0 →
      ∃ ys, frombuffer xs = some ys ∧ 2 * ys.length = xs.length
  | [], _ => ⟨[], rfl, rfl⟩
  | [a], h => by simp at h
  | a :: b :: rest, h => by
      have h2 : rest.length % 2 = 0 := by
        simp only [List.length_cons] at h
        omega
      obtain ⟨ys, hf, hl⟩ := frombuffer_of_even rest h2
      refine ⟨decodeInt16 a b :: ys, by simp [frombuffer, hf], ?_⟩
      simp only [List.length_cons]
      omega

theorem frombuffer_of_odd :
    ∀ xs : List Nat, xs.length % 2 = 1 → frombuffer xs = none
  | [], h => by simp at h
  | [_], _ => rfl
  | a :: b :: rest, h => by
      have h2 : rest.length % 2 = 1 := by
        simp only [List.length_cons] at h
        omega
      simp [frombuffer, frombuffer_of_odd rest h2]

/-- Model of `Intercom_minimal.pack_chunk` (lines 64-81 of
`intercom_minimal.py`): despite the docstring promising bytes, the body is
`return chunk`; the chunk object itself is the packet. -/
def pack_chunk (chunk : Chunk) : Chunk := chunk

/-- The numpy `ValueError` raised inside `unpack_packet`; the specification
abstracts this condition as `MalformedPacketError`. -/
inductive UnpackError where
  | frombufferSize
  | reshapeSize
deriving DecidableEq, Repr

/-- Model of `Intercom_minimal.unpack_packet` (lines 112-132): reinterpret
the payload bytes as int16 samples with `np.frombuffer`, then reshape to
`(frames_per_chunk, number_of_channels)`. Either numpy call raises a
`ValueError` on a size mismatch, modelled by the error branch. -/
def unpack_packet (cfg : Config) (packet : List Nat) : Except UnpackError Chunk :=
  match frombuffer packet with
  | none => .error .frombufferSize
  | some samples =>
      match reshapeRows cfg.number_of_channels cfg.frames_per_chunk samples with
      | none => .error .reshapeSize
      | some chunk => .ok chunk

/-- A local failure of `socket.sendto` (an OSError). -/
inductive SendError where
  | oserror
deriving DecidableEq, Repr

/-- Outcome the transport produces for one `send_packet` call. -/
abbrev SendResult := Except SendError Unit

/-- Outcome of the non-blocking `receive_packet` call: `none` models the
`BlockingIOError` raised when no datagram is waiting, `some packet` a
received payload. -/
abbrev RecvResult := Option (List Nat)

/-- An exception escaping `record_io_and_play` into the audio subsystem. -/
inductive CallbackError where
  | sendError (e : SendError)
  | unpackError (e : UnpackError)
deriving DecidableEq, Repr

/-- Model of `np.zeros((frames_per_chunk, number_of_channels), np.int16)`. -/
def zerosChunk (cfg : Config) : Chunk :=
  List.replicate cfg.frames_per_chunk (List.replicate cfg.number_of_channels 0)

/-- Model of `Intercom_minimal.record_io_and_play` (lines 165-174):

  - the captured chunk is packed and handed to `send_packet`; `send` is the
    transport environment and its exception (if any) propagates, since the
    call sits outside the `try` block;
  - `receive_packet` / `unpack_packet` run inside a `try` whose only
    handler is `except BlockingIOError`, which substitutes a zero chunk;
  - any other exception (the numpy `ValueError` from `unpack_packet`)
    propagates out of the callback;
  - on the normal paths the resulting chunk is written to `outdata`.

The returned value is the chunk written to the playback buffer, or the
exception that escaped the callback. -/
def record_io_and_play (cfg : Config) (send : Chunk → SendResult)
    (recv : RecvResult) (indata : Chunk) : Except CallbackError Chunk :=
  match send (pack_chunk indata) with
  | .error e => .error (.sendError e)
  | .ok _ =>
      match recv with
      | none => .ok (zerosChunk cfg)
      | some packet =>
          match unpack_packet cfg packet with
          | .error e => .error (.unpackError e)
          | .ok chunk => .ok chunk

theorem unpack_packet_ok (cfg : Config) (packet : List Nat)
    (hlen : packet.length = cfg.frames_per_chunk * cfg.number_of_channels * SAMPLE_TYPE_itemsize) :
    ∃ chunk, unpack_packet cfg packet = .ok chunk ∧ Chunk.wellShaped cfg chunk := by
  have heven : packet.length % 2 = 0 := by
    rw [hlen]
    show (cfg.frames_per_chunk * cfg.number_of_channels * 2) % 2 = 0
    omega
  obtain ⟨ys, hf, hl⟩ := frombuffer_of_even packet heven
  have hys : ys.length = cfg.frames_per_chunk * cfg.number_of_channels := by
    rw [hlen] at hl
    have hl2 : 2 * ys.length = cfg.frames_per_chunk * cfg.number_of_channels * 2 := hl
    omega
  obtain ⟨rows, hr, hrl, hrall⟩ :=
    reshapeRows_of_length cfg.number_of_channels cfg.frames_per_chunk ys hys
  exact ⟨rows, by simp [unpack_packet, hf, hr], hrl, hrall⟩

theorem unpack_packet_error (cfg : Config) (packet : List Nat)
    (hlen : packet.length ≠ cfg.frames_per_chunk * cfg.number_of_channels * SAMPLE_TYPE_itemsize) :
    ∃ e, unpack_packet cfg packet = .error e := by
  rcases Nat.mod_two_eq_zero_or_one packet.length with h | h
  · obtain ⟨ys, hf, hl⟩ := frombuffer_of_even packet h
    have hne : ys.length ≠ cfg.frames_per_chunk * cfg.number_of_channels := by
      intro hc
      apply hlen
      show packet.length = cfg.frames_per_chunk * cfg.number_of_channels * 2
      omega
    refine ⟨.reshapeSize, ?_⟩
    simp [unpack_packet, hf,
      reshapeRows_none cfg.number_of_channels cfg.frames_per_chunk ys hne]
  · exact ⟨.frombufferSize, by simp [unpack_packet, frombuffer_of_odd packet h]⟩

theorem unpack_pack_roundtrip (cfg : Config) (chunk : Chunk)
    (hshape : Chunk.wellShaped cfg chunk)
    (hrange : ∀ r ∈ chunk, ∀ x ∈ r, int16InRange x) :
    unpack_packet cfg (chunkBytes (pack_chunk chunk)) = .ok chunk := by
  have h1 : frombuffer (bytesOfSamples (rowsFlatten chunk)) = some (rowsFlatten chunk) :=
    frombuffer_bytesOfSamples _ (rowsFlatten_range chunk hrange)
  have h2 : reshapeRows cfg.number_of_channels chunk.length (rowsFlatten chunk) = some chunk :=
    reshapeRows_rowsFlatten cfg.number_of_channels chunk hshape.2
  rw [hshape.1] at h2
  simp [unpack_packet, pack_chunk, chunkBytes, h1, h2]

/-- Configuration of the specification's concrete scenarios:
`frames_per_chunk = 4`, `number_of_channels = 1`, 16-bit samples. -/
def cfg41 : Config := ⟨4, 1⟩

/-- C3: For every chunk of shape frames_per_chunk × number_of_channels with
16-bit signed integer samples, `unpack_packet (pack_chunk chunk)` equals
`chunk` exactly (round-trip identity). `pack_chunk` returns the array
itself, whose byte buffer is what `np.frombuffer` then reads. -/
theorem C3_roundtrip (cfg : Config) (chunk : Chunk)
    (hshape : Chunk.wellShaped cfg chunk)
    (hrange : ∀ r ∈ chunk, ∀ x ∈ r, int16InRange x) :
    unpack_packet cfg (chunkBytes (pack_chunk chunk)) = .ok chunk :=
  unpack_pack_roundtrip cfg chunk hshape hrange

theorem C3_roundtrip_witness :
    unpack_packet cfg41 (chunkBytes (pack_chunk [[1], [-2], [300], [-32768]]))
      = .ok [[1], [-2], [300], [-32768]] :=
  C3_roundtrip cfg41 [[1], [-2], [300], [-32768]] (by decide) (by decide)

/-- C6: `unpack_packet` fails (with the numpy ValueError the specification
calls MalformedPacketError) for every payload whose byte length differs
from `frames_per_chunk * number_of_channels * 2`, never producing a
partial or truncated chunk, and succeeds with a chunk of exactly the
expected shape for every payload of that length. -/
theorem C6_unpack_validation (cfg : Config) (packet : List Nat) :
    (packet.length ≠ cfg.frames_per_chunk * cfg.number_of_channels * SAMPLE_TYPE_itemsize →
      ∃ e, unpack_packet cfg packet = .error e) ∧
    (packet.length = cfg.frames_per_chunk * cfg.number_of_channels * SAMPLE_TYPE_itemsize →
      ∃ chunk, unpack_packet cfg packet = .ok chunk ∧ Chunk.wellShaped cfg chunk) :=
  ⟨fun h => unpack_packet_error cfg packet h,
   fun h => unpack_packet_ok cfg packet h⟩

theorem C6_unpack_validation_witness :
    (∃ e, unpack_packet cfg41 [0, 0, 0, 0, 0, 0] = .error e) ∧
    (∃ chunk, unpack_packet cfg41 [1, 0, 2, 0, 3, 0, 4, 0] = .ok chunk ∧
      Chunk.wellShaped cfg41 chunk) :=
  ⟨(C6_unpack_validation cfg41 [0, 0, 0, 0, 0, 0]).1 (by decide),
   (C6_unpack_validation cfg41 [1, 0, 2, 0, 3, 0, 4, 0]).2 (by decide)⟩

/-- C4: When the non-blocking receive finds no datagram (BlockingIOError),
the chunk written to the playback buffer is all-zero of exactly the
configured shape, regardless of the captured chunk, provided the preceding
send call returned (the send sits before the `try` block, so the claim is
about invocations that reach the receive). -/
theorem C4_silence_fallback (cfg : Config) (indata : Chunk)
    (send : Chunk → SendResult)
    (hsend : send (pack_chunk indata) = .ok ()) :
    record_io_and_play cfg send none indata = .ok (zerosChunk cfg) ∧
    Chunk.wellShaped cfg (zerosChunk cfg) ∧
    ∀ r ∈ zerosChunk cfg, ∀ x ∈ r, x = 0 := by
  refine ⟨by simp [record_io_and_play, hsend], ⟨by simp [zerosChunk], ?_⟩, ?_⟩
  · intro r hr
    rw [List.eq_of_mem_replicate hr]
    simp
  · intro r hr x hx
    rw [List.eq_of_mem_replicate hr] at hx
    exact List.eq_of_mem_replicate hx

theorem C4_silence_fallback_witness :
    record_io_and_play cfg41 (fun _ => .ok ()) none [[7], [8], [9], [10]]
      = .ok (zerosChunk cfg41) ∧
    Chunk.wellShaped cfg41 (zerosChunk cfg41) ∧
    ∀ r ∈ zerosChunk cfg41, ∀ x ∈ r, x = 0 :=
  C4_silence_fallback cfg41 [[7], [8], [9], [10]] (fun _ => .ok ()) rfl

/-- C5: When a datagram of exactly `frames_per_chunk * number_of_channels *
2` bytes is available, the chunk written to the playback buffer is exactly
the decoded chunk, unmodified. -/
theorem C5_playback_passthrough (cfg : Config) (indata : Chunk)
    (send : Chunk → SendResult) (packet : List Nat)
    (hsend : send (pack_chunk indata) = .ok ())
    (hlen : packet.length = cfg.frames_per_chunk * cfg.number_of_channels * SAMPLE_TYPE_itemsize) :
    ∃ chunk, unpack_packet cfg packet = .ok chunk ∧
      Chunk.wellShaped cfg chunk ∧
      record_io_and_play cfg send (some packet) indata = .ok chunk := by
  obtain ⟨chunk, hok, hsh⟩ := unpack_packet_ok cfg packet hlen
  exact ⟨chunk, hok, hsh, by simp [record_io_and_play, hsend, hok]⟩

theorem C5_playback_passthrough_witness :
    ∃ chunk, unpack_packet cfg41 [1, 0, 2, 0, 3, 0, 4, 0] = .ok chunk ∧
      Chunk.wellShaped cfg41 chunk ∧
      record_io_and_play cfg41 (fun _ => .ok ())
        (some [1, 0, 2, 0, 3, 0, 4, 0]) [[9], [9], [9], [9]] = .ok chunk :=
  C5_playback_passthrough cfg41 [[9], [9], [9], [9]] (fun _ => .ok ())
    [1, 0, 2, 0, 3, 0, 4, 0] rfl (by decide)

/-- C1 counterexample: with `frames=4, channels=1, width=2`, a 6-byte
datagram does not fall back to silence; the reshape `ValueError`
propagates out of the callback, contradicting the claim that a wrong-length
datagram is treated identically to nothing available. -/
theorem C1_counterexample :
    record_io_and_play cfg41 (fun _ => .ok ())
        (some [0, 0, 0, 0, 0, 0]) [[1], [2], [3], [4]]
      = .error (.unpackError .reshapeSize) ∧
    record_io_and_play cfg41 (fun _ => .ok ())
        (some [0, 0, 0, 0, 0, 0]) [[1], [2], [3], [4]]
      ≠ .ok (zerosChunk cfg41) :=
  ⟨rfl, fun h => Except.noConfusion h⟩

/-- C1 (amended): a datagram whose byte length differs from
`frames_per_chunk * number_of_channels * 2` is NOT treated like nothing
available: the numpy `ValueError` from `unpack_packet` escapes
`record_io_and_play` (only `BlockingIOError` is caught), and the all-zero
fallback chunk is written only when no datagram is available at all. -/
theorem C1_malformed_propagates (cfg : Config) (indata : Chunk)
    (send : Chunk → SendResult) (packet : List Nat)
    (hsend : send (pack_chunk indata) = .ok ())
    (hlen : packet.length ≠ cfg.frames_per_chunk * cfg.number_of_channels * SAMPLE_TYPE_itemsize) :
    (∃ e, record_io_and_play cfg send (some packet) indata = .error (.unpackError e)) ∧
    record_io_and_play cfg send none indata = .ok (zerosChunk cfg) := by
  obtain ⟨e, he⟩ := unpack_packet_error cfg packet hlen
  exact ⟨⟨e, by simp [record_io_and_play, hsend, he]⟩,
    by simp [record_io_and_play, hsend]⟩

theorem C1_malformed_propagates_witness :
    (∃ e, record_io_and_play cfg41 (fun _ => .ok ())
        (some [0, 0, 0, 0, 0, 0]) [[1], [2], [3], [4]] = .error (.unpackError e)) ∧
    record_io_and_play cfg41 (fun _ => .ok ()) none [[1], [2], [3], [4]]
      = .ok (zerosChunk cfg41) :=
  C1_malformed_propagates cfg41 [[1], [2], [3], [4]] (fun _ => .ok ())
    [0, 0, 0, 0, 0, 0] rfl (by decide)

/-- C2 counterexample: when `send_packet` raises, the invocation aborts
with the send error even though a well-formed 8-byte datagram is waiting
and would have decoded to `[[1],[2],[3],[4]]`; no playback chunk is
written, contradicting the claim that the receive and playback still
happen. -/
theorem C2_counterexample :
    record_io_and_play cfg41 (fun _ => .error .oserror)
        (some [1, 0, 2, 0, 3, 0, 4, 0]) [[9], [9], [9], [9]]
      = .error (.sendError .oserror) ∧
    unpack_packet cfg41 [1, 0, 2, 0, 3, 0, 4, 0] = .ok [[1], [2], [3], [4]] :=
  ⟨rfl, rfl⟩

/-- C2 (amended): `send_packet` is called outside the `try` block of
`record_io_and_play`, so a send failure propagates out of the callback and
aborts the invocation: whatever the receive would have returned, no
receive is consumed and no playback chunk is written. -/
theorem C2_send_failure_aborts (cfg : Config) (indata : Chunk)
    (e : SendError) (recv : RecvResult) :
    record_io_and_play cfg (fun _ => .error e) recv indata
      = .error (.sendError e) := rfl

/-- C9: `pack_chunk` is the identity: it returns the chunk object itself,
so the packet handed to `send_packet` is the numpy array (whose raw sample
buffer the socket layer reads), and Python's `len(packet)` is the array's
first dimension `frames_per_chunk`, not the payload byte count. -/
theorem C9_pack_identity (cfg : Config) (chunk : Chunk)
    (hshape : Chunk.wellShaped cfg chunk)
    (hframes : 0 < cfg.frames_per_chunk)
    (hchannels : 0 < cfg.number_of_channels) :
    pack_chunk chunk = chunk ∧
    (pack_chunk chunk).length = cfg.frames_per_chunk ∧
    (pack_chunk chunk).length
      ≠ cfg.frames_per_chunk * cfg.number_of_channels * SAMPLE_TYPE_itemsize := by
  refine ⟨rfl, hshape.1, ?_⟩
  rw [pack_chunk, hshape.1]
  show cfg.frames_per_chunk ≠ cfg.frames_per_chunk * cfg.number_of_channels * 2
  have h2 : cfg.frames_per_chunk * 1 ≤ cfg.frames_per_chunk * cfg.number_of_channels :=
    Nat.mul_le_mul_left _ hchannels
  omega

theorem C9_pack_identity_witness :
    pack_chunk [[1], [2], [3], [4]] = [[1], [2], [3], [4]] ∧
    (pack_chunk [[1], [2], [3], [4]]).length = cfg41.frames_per_chunk ∧
    (pack_chunk [[1], [2], [3], [4]]).length
      ≠ cfg41.frames_per_chunk * cfg41.number_of_channels * SAMPLE_TYPE_itemsize :=
  C9_pack_identity cfg41 [[1], [2], [3], [4]] (by decide) (by decide) (by decide)

/-- Instance state of `Intercom_minimal_debug` (lines 196-202 and the
fields set in `run`): CPU statistics, the per-interval byte/message
counters, the cumulative kbps totals, and the timestamp of the previous
report. Python floats are modelled as rationals. -/
structure DebugState where
  CPU_total : ℚ
  CPU_samples : Nat
  CPU_average : ℚ
  sent_bytes_counter : Nat
  received_bytes_counter : Nat
  sent_messages_counter : Nat
  received_messages_counter : Nat
  total_sent : Int
  total_received : Int
  old_time : ℚ
deriving DecidableEq, Repr

/-- Python `int()` applied to a rational value: truncation toward zero. -/
def pyInt (q : ℚ) : Int := q.num / q.den

/-- Model of `Intercom_minimal_debug.send_packet` (lines 204-207): first
the inherited `sendto` runs (its exception propagates), then
`sent_bytes_counter` grows by `len(packet) * itemsize * number_of_channels`
and `sent_messages_counter` by one. The packet is the numpy chunk, so
`len(packet)` is its row count. -/
def debug_send_packet (cfg : Config) (send : Chunk → SendResult)
    (packet : Chunk) (s : DebugState) : Except SendError DebugState :=
  match send packet with
  | .error e => .error e
  | .ok _ => .ok { s with
      sent_bytes_counter := s.sent_bytes_counter
        + packet.length * SAMPLE_TYPE_itemsize * cfg.number_of_channels,
      sent_messages_counter := s.sent_messages_counter + 1 }

/-- Model of `Intercom_minimal_debug.receive_packet` (lines 209-216): on a
received payload the byte counter grows by the payload length and the
message counter by one; a `BlockingIOError` (modelled by `none`) is
re-raised with the counters untouched. -/
def debug_receive_packet (recv : RecvResult) (s : DebugState) :
    Option (List Nat × DebugState) :=
  match recv with
  | none => none
  | some packet =>
      some (packet, { s with
        received_bytes_counter := s.received_bytes_counter + packet.length,
        received_messages_counter := s.received_messages_counter + 1 })

/-- One formatted telemetry line as printed by `print_feedback`
(line 229): interval message counts, interval kbps, cumulative kbps
totals, and CPU percentages. -/
structure FeedbackLine where
  sent_messages : Nat
  received_messages : Nat
  sent_kbps : Int
  received_kbps : Int
  total_sent_kbps : Int
  total_received_kbps : Int
  CPU_pct : Int
  CPU_avg_pct : Int
deriving DecidableEq, Repr

/-- Model of `Intercom_minimal_debug.print_feedback` (lines 218-233): it
samples the CPU, computes the interval bitrates from the byte counters and
the elapsed time, accumulates the kbps totals, emits one line, and resets
the four per-interval counters to zero. `now` models the `time.time()`
call and `cpu_usage` the `psutil.cpu_percent()` call. -/
def print_feedback (s : DebugState) (now cpu_usage : ℚ) :
    FeedbackLine × DebugState :=
  let CPU_total := s.CPU_total + cpu_usage
  let CPU_samples := s.CPU_samples + 1
  let CPU_average := CPU_total / (CPU_samples : ℚ)
  let elapsed_time := now - s.old_time
  let sent := pyInt ((s.sent_bytes_counter : ℚ) * 8 / 1000 / elapsed_time)
  let received := pyInt ((s.received_bytes_counter : ℚ) * 8 / 1000 / elapsed_time)
  let total_sent := s.total_sent + sent
  let total_received := s.total_received + received
  (⟨s.sent_messages_counter, s.received_messages_counter, sent, received,
    total_sent, total_received, pyInt cpu_usage, pyInt CPU_average⟩,
   { CPU_total := CPU_total, CPU_samples := CPU_samples,
     CPU_average := CPU_average,
     sent_bytes_counter := 0, received_bytes_counter := 0,
     sent_messages_counter := 0, received_messages_counter := 0,
     total_sent := total_sent, total_received := total_received,
     old_time := now })

/-- C8: starting an interval with the per-interval counters at zero, after
exactly two successful sends and two receives the telemetry line reports 2
messages sent and 2 received, and the state after the report has all four
per-interval counters back at zero while the cumulative totals have grown
by the interval amounts on top of their previous values. -/
theorem C8_telemetry_interval (cfg : Config)
    (send1 send2 : Chunk → SendResult) (p1 p2 : Chunk) (r1 r2 : List Nat)
    (s0 s1 s2 s3 s4 : DebugState) (now cpu : ℚ)
    (hm : s0.sent_messages_counter = 0)
    (hn : s0.received_messages_counter = 0)
    (h1 : debug_send_packet cfg send1 p1 s0 = .ok s1)
    (h2 : debug_receive_packet (some r1) s1 = some (r1, s2))
    (h3 : debug_send_packet cfg send2 p2 s2 = .ok s3)
    (h4 : debug_receive_packet (some r2) s3 = some (r2, s4)) :
    (print_feedback s4 now cpu).1.sent_messages = 2 ∧
    (print_feedback s4 now cpu).1.received_messages = 2 ∧
    (print_feedback s4 now cpu).2.sent_messages_counter = 0 ∧
    (print_feedback s4 now cpu).2.received_messages_counter = 0 ∧
    (print_feedback s4 now cpu).2.sent_bytes_counter = 0 ∧
    (print_feedback s4 now cpu).2.received_bytes_counter = 0 ∧
    (print_feedback s4 now cpu).2.total_sent
      = s0.total_sent + (print_feedback s4 now cpu).1.sent_kbps ∧
    (print_feedback s4 now cpu).2.total_received
      = s0.total_received + (print_feedback s4 now cpu).1.received_kbps := by
  cases hs1 : send1 p1 with
  | error e =>
      rw [debug_send_packet, hs1] at h1
      exact absurd h1 (by simp)
  | ok u =>
      rw [debug_send_packet, hs1] at h1
      cases hs2 : send2 p2 with
      | error e =>
          rw [debug_send_packet, hs2] at h3
          exact absurd h3 (by simp)
      | ok v =>
          rw [debug_send_packet, hs2] at h3
          rw [debug_receive_packet] at h2 h4
          simp only [Except.ok.injEq] at h1 h3
          simp only [Option.some.injEq, Prod.mk.injEq, true_and] at h2 h4
          subst h1
          subst h2
          subst h3
          subst h4
          simp [print_feedback, hm, hn]

/-- Interval start state for the concrete telemetry scenario: everything
zero. -/
def c8s0 : DebugState := ⟨0, 0, 0, 0, 0, 0, 0, 0, 0, 0⟩

/-- State after the first counted send of a 4×1 chunk (8 payload bytes). -/
def c8s1 : DebugState := ⟨0, 0, 0, 8, 0, 1, 0, 0, 0, 0⟩

/-- State after the first counted receive of an 8-byte payload. -/
def c8s2 : DebugState := ⟨0, 0, 0, 8, 8, 1, 1, 0, 0, 0⟩

/-- State after the second counted send. -/
def c8s3 : DebugState := ⟨0, 0, 0, 16, 8, 2, 1, 0, 0, 0⟩

/-- State after the second counted receive. -/
def c8s4 : DebugState := ⟨0, 0, 0, 16, 16, 2, 2, 0, 0, 0⟩

theorem C8_telemetry_interval_witness :
    (print_feedback c8s4 1 0).1.sent_messages = 2 ∧
    (print_feedback c8s4 1 0).1.received_messages = 2 ∧
    (print_feedback c8s4 1 0).2.sent_messages_counter = 0 ∧
    (print_feedback c8s4 1 0).2.received_messages_counter = 0 ∧
    (print_feedback c8s4 1 0).2.sent_bytes_counter = 0 ∧
    (print_feedback c8s4 1 0).2.received_bytes_counter = 0 ∧
    (print_feedback c8s4 1 0).2.total_sent
      = c8s0.total_sent + (print_feedback c8s4 1 0).1.sent_kbps ∧
    (print_feedback c8s4 1 0).2.total_received
      = c8s0.total_received + (print_feedback c8s4 1 0).1.received_kbps :=
  C8_telemetry_interval cfg41 (fun _ => .ok ()) (fun _ => .ok ())
    [[1], [2], [3], [4]] [[1], [2], [3], [4]]
    [1, 0, 2, 0, 3, 0, 4, 0] [1, 0, 2, 0, 3, 0, 4, 0]
    c8s0 c8s1 c8s2 c8s3 c8s4 1 0 rfl rfl rfl rfl rfl rfl

/-- C10: every successful instrumented send increments
`sent_messages_counter` by exactly one and `sent_bytes_counter` by exactly
`len(packet) * itemsize * number_of_channels`; when the packet is a
well-shaped chunk that amount equals
`frames_per_chunk * number_of_channels * 2`, one chunk's payload size. -/
theorem C10_debug_send_counters (cfg : Config) (send : Chunk → SendResult)
    (packet : Chunk) (s : DebugState)
    (hsend : send packet = .ok ())
    (hshape : Chunk.wellShaped cfg packet) :
    ∃ s2, debug_send_packet cfg send packet s = .ok s2 ∧
      s2.sent_messages_counter = s.sent_messages_counter + 1 ∧
      s2.sent_bytes_counter = s.sent_bytes_counter
        + packet.length * SAMPLE_TYPE_itemsize * cfg.number_of_channels ∧
      packet.length * SAMPLE_TYPE_itemsize * cfg.number_of_channels
        = cfg.frames_per_chunk * cfg.number_of_channels * SAMPLE_TYPE_itemsize := by
  refine ⟨{ s with
      sent_bytes_counter := s.sent_bytes_counter
        + packet.length * SAMPLE_TYPE_itemsize * cfg.number_of_channels,
      sent_messages_counter := s.sent_messages_counter + 1 }, ?_, rfl, rfl, ?_⟩
  · rw [debug_send_packet, hsend]
  · rw [hshape.1]
    ring

/-- State with arbitrary nonzero counters, showing the increments of C10
apply on top of previous values. -/
def c10s : DebugState := ⟨1, 1, 1, 3, 4, 5, 6, 7, 8, 9⟩

theorem C10_debug_send_counters_witness :
    ∃ s2, debug_send_packet cfg41 (fun _ => .ok ()) [[1], [2], [3], [4]] c10s
        = .ok s2 ∧
      s2.sent_messages_counter = c10s.sent_messages_counter + 1 ∧
      s2.sent_bytes_counter = c10s.sent_bytes_counter
        + ([[1], [2], [3], [4]] : Chunk).length * SAMPLE_TYPE_itemsize
          * cfg41.number_of_channels ∧
      ([[1], [2], [3], [4]] : Chunk).length * SAMPLE_TYPE_itemsize
          * cfg41.number_of_channels
        = cfg41.frames_per_chunk * cfg41.number_of_channels * SAMPLE_TYPE_itemsize :=
  C10_debug_send_counters cfg41 (fun _ => .ok ()) [[1], [2], [3], [4]] c10s
    rfl (by decide)

/-- Argument handed to Python's `sys.exit`: an integer is used as the exit
status, `None` means status zero, and any other object — such as a string
— is printed to stderr and yields status one. -/
inductive PyExitArg where
  | intStatus (n : Nat)
  | noneStatus
  | strStatus (s : String)
deriving DecidableEq, Repr

/-- Process status produced by `sys.exit` for each argument kind. -/
def sysExitStatus : PyExitArg → Nat
  | .intStatus n => n
  | .noneStatus => 0
  | .strStatus _ => 1

/-- Model of `argparse.ArgumentParser.exit(status, message)`: it prints the
message when one is given and calls `sys.exit(status)`. The source calls
it with a single positional string argument, so that string is bound to
`status`, not to `message`. -/
def parser_exit (status : PyExitArg) : Nat := sysExitStatus status

/-- What ends the blocking wait of the control context. -/
inductive ControlEvent where
  | enterKey
  | interrupt
  | startupError (msg : String)
deriving DecidableEq, Repr

/-- Model of the top-level control flow shared by `intercom__minimal.py`
lines 182-185 and the non-debug branch of `intercom_minimal.py` lines
257-267: a console line makes `input()` return and the script falls off
the end (status zero); a `KeyboardInterrupt` is caught and answered with
`parser.exit("\nInterrupted by user")`; any other exception with
`parser.exit(name + ": " + text)`. In both calls the string is passed
positionally as the status. -/
def mainExitStatus : ControlEvent → Nat
  | .enterKey => 0
  | .interrupt => parser_exit (.strStatus "\nInterrupted by user")
  | .startupError m => parser_exit (.strStatus m)

/-- C7: the modelled process exit evaluated at the three control events.
The user-requested interrupt quit exits with status ONE, not zero, because
`parser.exit` receives the farewell message as its `status` argument and
`sys.exit` of a string yields status 1; the console-line quit does exit
with zero, and a startup failure exits nonzero. -/
theorem C7_exit_status :
    mainExitStatus .interrupt = 1 ∧
    mainExitStatus .enterKey = 0 ∧
    mainExitStatus (.startupError "OSError: [Errno 98] Address already in use") = 1 :=
  ⟨rfl, rfl, rfl⟩

end Intercom
